import Mathlib

/-!
Verification of the size-hint computation of `toga`'s ImageView widget
(`src/core/src/toga/widgets/imageview.py`), shallowly embedded in Lean.

The function `rehint_imageview(image, style, scale)` is a pure function
producing a `(width, height, aspect_ratio)` triple.  We embed:

* `image` as `Option Image` — Python's `if image:` is truthiness of an
  object reference, which for a `toga.Image` is `None`-or-present;
* `style.width` / `style.height` as `Option ℚ` — the `NONE` sentinel of
  the Pack style system becomes `none`, a resolved numeric value `v`
  becomes `some v`;
* `style.flex` as `Bool` — truthiness of the numeric flex value;
* `at_least(0)` (travertino's flexible lower bound) as a constructor of
  the sum type `Dim`, distinct from fixed integers;
* Python's `int(...)` conversion as truncation toward zero on ℚ;
* Python's `ZeroDivisionError` as an `Option` result: `none` means the
  call raised instead of returning a triple.  Divisions occur at
  `image.width / image.height` (raises when `image.height == 0`) and at
  `style.width * scale / aspect_ratio` (raises when `aspect_ratio == 0`,
  i.e. when `image.width == 0`).
-/

/-- An image, as queried by `rehint_imageview`: pixel width and height. -/
structure Image where
  width : ℕ
  height : ℕ
deriving DecidableEq, Repr

/-- The slice of the Pack style object read by `rehint_imageview`:
`width` and `height` (each a resolved value or the `NONE` sentinel,
embedded as `Option`), and the truthiness of `flex`. -/
structure Style where
  width : Option ℚ
  height : Option ℚ
  flex : Bool
deriving DecidableEq, Repr

/-- A size-hint dimension: either a fixed integer, or travertino's
`at_least(n)` flexible lower bound. -/
inductive Dim where
  | fixed (n : ℤ)
  | atLeast (n : ℤ)
deriving DecidableEq, Repr

/-- Python's `int(q)` on a real-valued `q`: truncation toward zero. -/
def pyInt (q : ℚ) : ℤ := if 0 ≤ q then ⌊q⌋ else -⌊-q⌋

/-- Shallow embedding of `rehint_imageview` from
`src/core/src/toga/widgets/imageview.py` (lines 15–67).  The result is
`some (width, height, aspect_ratio)` on normal return and `none` when
the Python code would raise `ZeroDivisionError`. -/
def rehint_imageview (image : Option Image) (style : Style) (scale : ℕ) :
    Option (Dim × Dim × Option ℚ) :=
  match image with
  | some img =>
    match style.width, style.height with
    | some sw, some sh =>
      -- Explicit width and height for image.
      some (Dim.fixed (pyInt (sw * scale)), Dim.fixed (pyInt (sh * scale)), none)
    | some sw, none =>
      -- Explicit width, implicit height. Preserve aspect ratio.
      if img.height = 0 then none  -- image.width / image.height raises
      else
        let aspect_ratio : ℚ := (img.width : ℚ) / (img.height : ℚ)
        if aspect_ratio = 0 then none  -- ... * scale / aspect_ratio raises
        else
          let width := Dim.fixed (pyInt (sw * scale))
          let height :=
            if style.flex then Dim.atLeast 0
            else Dim.fixed (pyInt (sw * scale / aspect_ratio))
          some (width, height, some aspect_ratio)
    | none, some sh =>
      -- Explicit height, implicit width. Preserve aspect ratio.
      if img.height = 0 then none
      else
        let aspect_ratio : ℚ := (img.width : ℚ) / (img.height : ℚ)
        let width :=
          if style.flex then Dim.atLeast 0
          else Dim.fixed (pyInt (sh * scale * aspect_ratio))
        some (width, Dim.fixed (pyInt (sh * scale)), some aspect_ratio)
    | none, none =>
      -- Use the image's actual size.
      if img.height = 0 then none
      else
        let aspect_ratio : ℚ := (img.width : ℚ) / (img.height : ℚ)
        if style.flex then
          some (Dim.atLeast 0, Dim.atLeast 0, some aspect_ratio)
        else
          some (Dim.fixed (pyInt ((img.width : ℚ) * scale)),
                Dim.fixed (pyInt ((img.height : ℚ) * scale)), some aspect_ratio)
  | none =>
    -- No image. Hinted size is 0.
    some (Dim.fixed 0, Dim.fixed 0, none)

/-- The observable state of an `ImageView` widget read or written by its
`enabled` property accessors: the stored image (the only widget-specific
attribute the class holds). -/
structure ImageViewState where
  image : Option Image
deriving DecidableEq, Repr

/-- Getter of `ImageView.enabled` (lines 97–104): constantly `True`. -/
def ImageView.enabled (_self : ImageViewState) : Bool := true

/-- Setter of `ImageView.enabled` (lines 106–108): `pass`, i.e. the
state is returned unchanged whatever value is assigned. -/
def ImageView.set_enabled {α : Type} (self : ImageViewState) (_value : α) :
    ImageViewState := self

/-- C1: for every style and every scale, if the image argument is `None`,
`rehint_imageview` returns exactly the triple `(0, 0, None)`. -/
theorem rehint_none_image (style : Style) (scale : ℕ) :
    rehint_imageview none style scale =
      some (Dim.fixed 0, Dim.fixed 0, none) := rfl

/-! ## Helper lemmas (shared branch characterizations) -/

/-- Python's `int` agrees with `floor` on non-negative values. -/
theorem pyInt_eq_floor {q : ℚ} (h : 0 ≤ q) : pyInt q = ⌊q⌋ := if_pos h

/-- Both style dimensions set: the image is never read. -/
theorem rehint_both_eq (img : Image) (sw sh : ℚ) (flex : Bool) (scale : ℕ) :
    rehint_imageview (some img) ⟨some sw, some sh, flex⟩ scale =
      some (Dim.fixed (pyInt (sw * scale)), Dim.fixed (pyInt (sh * scale)),
        none) := rfl

/-- Only `style.width` set, valid image: the returned triple. -/
theorem rehint_width_only_eq (img : Image) (sw : ℚ) (flex : Bool) (scale : ℕ)
    (hw : 0 < img.width) (hh : 0 < img.height) :
    rehint_imageview (some img) ⟨some sw, none, flex⟩ scale =
      some (Dim.fixed (pyInt (sw * scale)),
        if flex then Dim.atLeast 0
        else Dim.fixed (pyInt (sw * scale / ((img.width : ℚ) / img.height))),
        some ((img.width : ℚ) / img.height)) := by
  have hh0 : img.height ≠ 0 := Nat.pos_iff_ne_zero.mp hh
  have ha : ((img.width : ℚ) / img.height) ≠ 0 :=
    div_ne_zero (Nat.cast_ne_zero.mpr (Nat.pos_iff_ne_zero.mp hw))
      (Nat.cast_ne_zero.mpr hh0)
  simp only [rehint_imageview, hh0, if_false, ha, if_neg]

/-- Only `style.height` set, image with positive height: the returned
triple (a zero-width image is fine here: no division by the ratio). -/
theorem rehint_height_only_eq (img : Image) (sh : ℚ) (flex : Bool) (scale : ℕ)
    (hh : 0 < img.height) :
    rehint_imageview (some img) ⟨none, some sh, flex⟩ scale =
      some (if flex then Dim.atLeast 0
        else Dim.fixed (pyInt (sh * scale * ((img.width : ℚ) / img.height))),
        Dim.fixed (pyInt (sh * scale)),
        some ((img.width : ℚ) / img.height)) := by
  have hh0 : img.height ≠ 0 := Nat.pos_iff_ne_zero.mp hh
  simp only [rehint_imageview, hh0, if_false]

/-- Neither style dimension set, image with positive height: the
returned triple. -/
theorem rehint_neither_eq (img : Image) (flex : Bool) (scale : ℕ)
    (hh : 0 < img.height) :
    rehint_imageview (some img) ⟨none, none, flex⟩ scale =
      some (if flex then Dim.atLeast 0
          else Dim.fixed (pyInt ((img.width : ℚ) * scale)),
        if flex then Dim.atLeast 0
          else Dim.fixed (pyInt ((img.height : ℚ) * scale)),
        some ((img.width : ℚ) / img.height)) := by
  have hh0 : img.height ≠ 0 := Nat.pos_iff_ne_zero.mp hh
  cases flex <;> simp [rehint_imageview, hh0]

/-- C2: whenever both `style.width` and `style.height` are set, the
`aspect_ratio` component of the result is `None`, regardless of image
presence or dimensions. -/
theorem rehint_both_set_no_ratio (image : Option Image) (sw sh : ℚ)
    (flex : Bool) (scale : ℕ) :
    ∃ w h, rehint_imageview image ⟨some sw, some sh, flex⟩ scale =
      some (w, h, none) := by
  cases image with
  | none => exact ⟨_, _, rfl⟩
  | some img => exact ⟨_, _, rfl⟩

/-- C3: image present, both style dimensions set (non-negative, per the
style data model): the result is
`(floor(style.width * scale), floor(style.height * scale), None)`. -/
theorem rehint_both_set_values (img : Image) (sw sh : ℚ) (flex : Bool)
    (scale : ℕ) (hsw : 0 ≤ sw) (hsh : 0 ≤ sh) :
    rehint_imageview (some img) ⟨some sw, some sh, flex⟩ scale =
      some (Dim.fixed ⌊sw * scale⌋, Dim.fixed ⌊sh * scale⌋, none) := by
  rw [rehint_both_eq, pyInt_eq_floor (by positivity),
    pyInt_eq_floor (by positivity)]

/-- C3 witness: image 200×100, style width=50 height=30, scale=2 gives
`(100, 60, None)`. -/
theorem rehint_both_set_values_witness :
    rehint_imageview (some ⟨200, 100⟩) ⟨some 50, some 30, false⟩ 2 =
      some (Dim.fixed 100, Dim.fixed 60, none) := by
  rw [rehint_both_set_values ⟨200, 100⟩ 50 30 false 2 (by norm_num)
    (by norm_num)]
  norm_num

/-- C4 counterexample: a present image with `height > 0` but `width = 0`
and only `style.width` set makes the code raise `ZeroDivisionError`
(the computed `aspect_ratio` is `0.0` and `style.width * scale / 0.0`
raises) instead of returning the triple the claim promises. -/
theorem rehint_width_only_zero_width_raises :
    rehint_imageview (some ⟨0, 1⟩) ⟨some 5, none, false⟩ 1 = none := by
  norm_num [rehint_imageview]

/-- C4 amended: as the claim, with the extra precondition
`image.width > 0` in the case where only `style.width` is set (otherwise
the division by the zero aspect ratio raises). -/
theorem rehint_one_axis_set :
    (∀ (img : Image) (sw : ℚ) (flex : Bool) (scale : ℕ),
      0 < img.width → 0 < img.height → 0 ≤ sw →
      rehint_imageview (some img) ⟨some sw, none, flex⟩ scale =
        some (Dim.fixed ⌊sw * scale⌋,
          if flex then Dim.atLeast 0
          else Dim.fixed ⌊sw * scale / ((img.width : ℚ) / img.height)⌋,
          some ((img.width : ℚ) / img.height))) ∧
    (∀ (img : Image) (sh : ℚ) (flex : Bool) (scale : ℕ),
      0 < img.height → 0 ≤ sh →
      rehint_imageview (some img) ⟨none, some sh, flex⟩ scale =
        some (if flex then Dim.atLeast 0
          else Dim.fixed ⌊sh * scale * ((img.width : ℚ) / img.height)⌋,
          Dim.fixed ⌊sh * scale⌋,
          some ((img.width : ℚ) / img.height))) := by
  constructor
  · intro img sw flex scale hw hh hsw
    rw [rehint_width_only_eq img sw flex scale hw hh,
      pyInt_eq_floor (mul_nonneg hsw (Nat.cast_nonneg _)),
      pyInt_eq_floor (by positivity)]
  · intro img sh flex scale hh hsh
    rw [rehint_height_only_eq img sh flex scale hh,
      pyInt_eq_floor (mul_nonneg hsh (Nat.cast_nonneg _)),
      pyInt_eq_floor (by positivity)]

/-- C4 witness: the spec scenario (image 200×100, width=50, flex=false,
scale=1 gives `(50, 25, 2.0)`) and a height-only flex case. -/
theorem rehint_one_axis_set_witness :
    rehint_imageview (some ⟨200, 100⟩) ⟨some 50, none, false⟩ 1 =
      some (Dim.fixed 50, Dim.fixed 25, some 2) ∧
    rehint_imageview (some ⟨200, 100⟩) ⟨none, some 30, true⟩ 1 =
      some (Dim.atLeast 0, Dim.fixed 30, some 2) := by
  constructor
  · rw [rehint_one_axis_set.1 ⟨200, 100⟩ 50 false 1 (by norm_num)
      (by norm_num) (by norm_num)]
    norm_num
  · rw [rehint_one_axis_set.2 ⟨200, 100⟩ 30 true 1 (by norm_num)
      (by norm_num)]
    norm_num

/-- C5: image present with positive height, neither style dimension set:
width/height are the scaled image dimensions (flexible lower bound 0
under `flex`) and the aspect ratio is `image.width / image.height`. -/
theorem rehint_neither_set (img : Image) (flex : Bool) (scale : ℕ)
    (hh : 0 < img.height) :
    rehint_imageview (some img) ⟨none, none, flex⟩ scale =
      some (if flex then Dim.atLeast 0
          else Dim.fixed ⌊(img.width : ℚ) * scale⌋,
        if flex then Dim.atLeast 0
          else Dim.fixed ⌊(img.height : ℚ) * scale⌋,
        some ((img.width : ℚ) / img.height)) := by
  rw [rehint_neither_eq img flex scale hh, pyInt_eq_floor (by positivity),
    pyInt_eq_floor (by positivity)]

/-- C5 witness: image 200×100, no style dims, flex=true, scale=1 gives
`(at_least(0), at_least(0), 2.0)`. -/
theorem rehint_neither_set_witness :
    rehint_imageview (some ⟨200, 100⟩) ⟨none, none, true⟩ 1 =
      some (Dim.atLeast 0, Dim.atLeast 0, some 2) := by
  rw [rehint_neither_set ⟨200, 100⟩ true 1 (by norm_num)]
  norm_num

/-- Auxiliary: `int` of a product of naturals is that product. -/
theorem pyInt_nat_mul (a b : ℕ) : pyInt ((a : ℚ) * b) = (a * b : ℕ) := by
  have h : ((a : ℚ) * b) = ((a * b : ℕ) : ℚ) := by push_cast; ring
  rw [pyInt_eq_floor (by positivity), h, Int.floor_natCast]

/-- C6 counterexample: image 5×2, style width=1 only, scale=1 yields
width_out=1, height_out=0, and
`|height_out * image.width - width_out * image.height| = 2 > 1`:
the products do not agree within 1 unit. -/
theorem rehint_aspect_tolerance_violated :
    rehint_imageview (some ⟨5, 2⟩) ⟨some 1, none, false⟩ 1 =
      some (Dim.fixed 1, Dim.fixed 0, some (5 / 2)) ∧
    ¬ |(0 : ℤ) * 5 - 1 * 2| ≤ 1 := by
  constructor
  · norm_num [rehint_imageview, pyInt]
  · decide

/-- C6 amended: for a present image with positive dimensions and a style
with only `width` set (flex false, so both outputs are fixed integers),
`height_out * image.width` equals `width_out * image.height` within
integer-truncation tolerance: their difference lies strictly between
`-image.width` and `image.height` (not within 1 unit as claimed). -/
theorem rehint_aspect_ratio_bound (img : Image) (sw : ℚ) (scale : ℕ)
    (W H : ℤ) (a : Option ℚ) (hw : 0 < img.width) (hh : 0 < img.height)
    (hsw : 0 ≤ sw)
    (heq : rehint_imageview (some img) ⟨some sw, none, false⟩ scale =
      some (Dim.fixed W, Dim.fixed H, a)) :
    -(img.width : ℤ) < H * img.width - W * img.height ∧
      H * img.width - W * img.height < img.height := by
  rw [rehint_width_only_eq img sw false scale hw hh] at heq
  simp only [Bool.false_eq_true, if_false, Option.some.injEq, Prod.mk.injEq,
    Dim.fixed.injEq] at heq
  obtain ⟨hW, hH, -⟩ := heq
  have hwQ : (0 : ℚ) < img.width := by exact_mod_cast hw
  have hhQ : (0 : ℚ) < img.height := by exact_mod_cast hh
  set q : ℚ := sw * scale with hq
  have hq0 : 0 ≤ q := mul_nonneg hsw (Nat.cast_nonneg _)
  have hdiv : q / ((img.width : ℚ) / img.height) = q * img.height / img.width := by
    rw [div_div_eq_mul_div]
  rw [pyInt_eq_floor hq0] at hW
  rw [pyInt_eq_floor (by positivity), hdiv] at hH
  have hH1 : (H : ℚ) * img.width ≤ q * img.height := by
    have := Int.floor_le (q * (img.height : ℚ) / img.width)
    rw [hH] at this
    exact (le_div_iff₀ hwQ).mp this
  have hH2 : q * (img.height : ℚ) < (H + 1) * img.width := by
    have := Int.lt_floor_add_one (q * (img.height : ℚ) / img.width)
    rw [hH] at this
    exact_mod_cast (div_lt_iff₀ hwQ).mp this
  have hW1 : (W : ℚ) * img.height ≤ q * img.height := by
    have := Int.floor_le q
    rw [hW] at this
    exact mul_le_mul_of_nonneg_right this hhQ.le
  have hW2 : q * (img.height : ℚ) < (W + 1) * img.height := by
    have := Int.lt_floor_add_one q
    rw [hW] at this
    exact_mod_cast mul_lt_mul_of_pos_right this hhQ
  constructor
  · have : (W : ℚ) * img.height < (H : ℚ) * img.width + img.width := by
      nlinarith [hH2]
    have hz : -(img.width : ℚ) < (H : ℚ) * img.width - (W : ℚ) * img.height := by
      linarith
    exact_mod_cast hz
  · have : (H : ℚ) * img.width < (W : ℚ) * img.height + img.height := by
      nlinarith [hW2]
    have hz : (H : ℚ) * img.width - (W : ℚ) * img.height < img.height := by
      linarith
    exact_mod_cast hz

/-- C6 witness: image 200×100, width=50, scale=1 gives W=50, H=25 and
`25*200 - 50*100 = 0`, strictly between `-200` and `100`. -/
theorem rehint_aspect_ratio_bound_witness :
    -(200 : ℤ) < 25 * 200 - 50 * 100 ∧ 25 * 200 - 50 * 100 < (100 : ℤ) :=
  rehint_aspect_ratio_bound ⟨200, 100⟩ 50 1 50 25 (some 2) (by norm_num)
    (by norm_num) (by norm_num) (by norm_num [rehint_imageview, pyInt])

/-- C7: image present (positive height), no style dimensions, flex
false: both size outputs exist as fixed integers and are monotone in the
scale factor. -/
theorem rehint_scale_monotone (img : Image) (s1 s2 : ℕ) (hh : 0 < img.height)
    (hs : s1 < s2) :
    ∃ (W1 H1 W2 H2 : ℤ) (a : Option ℚ),
      rehint_imageview (some img) ⟨none, none, false⟩ s1 =
        some (Dim.fixed W1, Dim.fixed H1, a) ∧
      rehint_imageview (some img) ⟨none, none, false⟩ s2 =
        some (Dim.fixed W2, Dim.fixed H2, a) ∧
      W1 ≤ W2 ∧ H1 ≤ H2 := by
  refine ⟨(img.width * s1 : ℕ), (img.height * s1 : ℕ), (img.width * s2 : ℕ),
    (img.height * s2 : ℕ), some ((img.width : ℚ) / img.height), ?_, ?_, ?_, ?_⟩
  · rw [rehint_neither_eq img false s1 hh, pyInt_nat_mul, pyInt_nat_mul]
    simp
  · rw [rehint_neither_eq img false s2 hh, pyInt_nat_mul, pyInt_nat_mul]
    simp
  · exact_mod_cast Nat.mul_le_mul_left img.width hs.le
  · exact_mod_cast Nat.mul_le_mul_left img.height hs.le

/-- C7 witness: image 200×100, scales 1 < 3. -/
theorem rehint_scale_monotone_witness :
    ∃ (W1 H1 W2 H2 : ℤ) (a : Option ℚ),
      rehint_imageview (some ⟨200, 100⟩) ⟨none, none, false⟩ 1 =
        some (Dim.fixed W1, Dim.fixed H1, a) ∧
      rehint_imageview (some ⟨200, 100⟩) ⟨none, none, false⟩ 3 =
        some (Dim.fixed W2, Dim.fixed H2, a) ∧
      W1 ≤ W2 ∧ H1 ≤ H2 :=
  rehint_scale_monotone ⟨200, 100⟩ 1 3 (by norm_num) (by norm_num)

/-- C8: on valid input (no image, or an image with positive width and
height) the computation returns normally — no `ZeroDivisionError` is
raised (the embedding never returns `none`), and being a pure function
of its arguments it has no side effects. -/
theorem rehint_no_error (image : Option Image) (style : Style) (scale : ℕ)
    (hvalid : image = none ∨
      ∃ img, image = some img ∧ 0 < img.width ∧ 0 < img.height) :
    rehint_imageview image style scale ≠ none := by
  rcases hvalid with rfl | ⟨img, rfl, hw, hh⟩
  · simp [rehint_imageview]
  · obtain ⟨w, h, fl⟩ := style
    cases w with
    | some sw =>
      cases h with
      | some sh => rw [rehint_both_eq] ; simp
      | none => rw [rehint_width_only_eq img sw fl scale hw hh] ; simp
    | none =>
      cases h with
      | some sh => rw [rehint_height_only_eq img sh fl scale hh] ; simp
      | none => rw [rehint_neither_eq img fl scale hh] ; simp

/-- C8 witness: a concrete valid input returns normally. -/
theorem rehint_no_error_witness :
    rehint_imageview (some ⟨3, 4⟩) ⟨some 1, none, true⟩ 2 ≠ none :=
  rehint_no_error (some ⟨3, 4⟩) ⟨some 1, none, true⟩ 2
    (Or.inr ⟨⟨3, 4⟩, rfl, by norm_num, by norm_num⟩)

/-- C9: a degenerate image with `height = 0` does not make the both-set
branch raise: the image is never read there, and the result is
`(floor(style.width * scale), floor(style.height * scale), None)`. -/
theorem rehint_zero_height_both_set (img : Image) (sw sh : ℚ) (flex : Bool)
    (scale : ℕ) (_hz : img.height = 0) (hsw : 0 ≤ sw) (hsh : 0 ≤ sh) :
    rehint_imageview (some img) ⟨some sw, some sh, flex⟩ scale =
      some (Dim.fixed ⌊sw * scale⌋, Dim.fixed ⌊sh * scale⌋, none) := by
  rw [rehint_both_eq, pyInt_eq_floor (by positivity),
    pyInt_eq_floor (by positivity)]

/-- C9 witness: image 10×0, style width=3 height=4, scale=2 returns
`(6, 8, None)` normally. -/
theorem rehint_zero_height_both_set_witness :
    rehint_imageview (some ⟨10, 0⟩) ⟨some 3, some 4, false⟩ 2 =
      some (Dim.fixed 6, Dim.fixed 8, none) := by
  rw [rehint_zero_height_both_set ⟨10, 0⟩ 3 4 false 2 rfl (by norm_num)
    (by norm_num)]
  norm_num

/-- C10: `ImageView.enabled` always reads `True`, and assigning any
value to it leaves the widget state entirely unchanged (and `enabled`
still reads `True` afterwards). -/
theorem imageview_enabled_always_true (s : ImageViewState) {α : Type}
    (v : α) :
    ImageView.enabled s = true ∧
    ImageView.set_enabled s v = s ∧
    ImageView.enabled (ImageView.set_enabled s v) = true :=
  ⟨rfl, rfl, rfl⟩
